import Mathlib

/-!
Voting War — client-side state reconciliation engine.

Shallow embedding of the reconciliation core of `App.jsx`: the React state
hooks become an explicit `AppState` record, each event handler
(`applyServerState`, `fetchScores` success/failure, `postVote`
success/failure, `handleVote`, the WebSocket callbacks) becomes a pure
state transformer, and the interleaving of timer ticks, channel messages,
user actions and request completions becomes a fold of an event list.

JavaScript numbers are modelled as `Int` (the exact integers the claims
are about; fractional doubles and NaN are outside the model).  JSON
values appearing in a server snapshot are modelled by `JsVal`; an absent
(`undefined`) field is `Option.none`.  The presentation-only hooks
(`smashing`, `shakeScreen`, `hypeMessage`, `hypeVisible`, `comboCount`)
and their timers carry no reconciliation state and are outside the
embedded core; the randomly drawn victory message is kept, with the
random index passed explicitly.
-/

namespace VotingWar

/-- A JSON runtime value as it can appear in a snapshot field. -/
inductive JsVal where
  | vnum (n : Int)
  | vstr (s : String)
  | vnull
  | vbool (b : Bool)
  deriving DecidableEq, Repr

/-- `typeof x === 'number'` on an optional field (`none` = `undefined`). -/
def isNumber : Option JsVal → Bool
  | some (JsVal.vnum _) => true
  | _ => false

/-- Numeric payload of a field known to be a number (junk otherwise). -/
def numVal : Option JsVal → Int
  | some (JsVal.vnum n) => n
  | _ => 0

/-- JavaScript truthiness of an optional field, as used by
`if (data.matchState)` and similar guards. -/
def truthy : Option JsVal → Bool
  | none => false
  | some (JsVal.vnum n) => decide (n ≠ 0)
  | some (JsVal.vstr s) => decide (s ≠ "")
  | some JsVal.vnull => false
  | some (JsVal.vbool b) => b

/-- A server snapshot: a JSON object with any subset of these fields
(`applyServerState`'s `data`). -/
structure Snapshot where
  team1 : Option JsVal := none
  team2 : Option JsVal := none
  matchState : Option JsVal := none
  winner : Option JsVal := none
  matchesPlayed : Option JsVal := none
  countdown : Option JsVal := none
  winScore : Option JsVal := none
  deriving DecidableEq, Repr

/-- The two vote sides. -/
inductive Team where
  | team1
  | team2
  deriving DecidableEq, Repr

/-- A `{ team1, team2 }` pair of counters (scores, pending updates). -/
structure ScorePair where
  team1 : Int
  team2 : Int
  deriving DecidableEq, Repr

/-- Read one side of a pair (`p[team]`). -/
def ScorePair.get (p : ScorePair) (t : Team) : Int :=
  match t with
  | Team.team1 => p.team1
  | Team.team2 => p.team2

/-- Update one side of a pair (`{ ...p, [team]: f(p[team]) }`). -/
def ScorePair.update (p : ScorePair) (t : Team) (f : Int → Int) : ScorePair :=
  match t with
  | Team.team1 => { p with team1 := f p.team1 }
  | Team.team2 => { p with team2 := f p.team2 }

def VICTORY_MESSAGES : List String :=
  ["🏆 ABSOLUTE DOMINATION!",
   "👑 BOW TO THE CHAMPION!",
   "💀 TOTAL ANNIHILATION!",
   "⚡ FLAWLESS VICTORY!",
   "🔥 THEY NEVER STOOD A CHANCE!"]

/-- The reconciliation core of the component state: the `useState` hooks
`scores`, `error`, `isOnline`, `matchState`, `winner`, `matchesPlayed`,
`countdown`, `winScore`, `victoryMessage` plus `pendingUpdatesRef`.
`matchState` is stored as a raw `JsVal` because the code assigns any
truthy snapshot value to it. -/
structure AppState where
  scores : ScorePair
  error : Option String
  isOnline : Bool
  pendingUpdates : ScorePair
  matchState : JsVal
  winner : JsVal
  matchesPlayed : Int
  countdown : Int
  winScore : Int
  victoryMessage : String
  deriving DecidableEq, Repr

/-- The initial hook values. -/
def initState : AppState where
  scores := ⟨0, 0⟩
  error := none
  isOnline := true
  pendingUpdates := ⟨0, 0⟩
  matchState := JsVal.vstr "active"
  winner := JsVal.vnull
  matchesPlayed := 0
  countdown := 0
  winScore := 100
  victoryMessage := VICTORY_MESSAGES.getD 0 ""

/-- First statement of `applyServerState`: scores are applied only when
both fields have number type, and applying them also marks the client
online, clears the error and zeroes the whole pending ledger. -/
def applyScoresField (data : Snapshot) (s : AppState) : AppState :=
  if isNumber data.team1 && isNumber data.team2 then
    { s with scores := ⟨numVal data.team1, numVal data.team2⟩
             isOnline := true
             error := none
             pendingUpdates := ⟨0, 0⟩ }
  else s

/-- `if (data.matchState) setMatchState(data.matchState)`. -/
def applyMatchStateField (data : Snapshot) (s : AppState) : AppState :=
  if truthy data.matchState then
    { s with matchState := (data.matchState).getD JsVal.vnull }
  else s

/-- `if (data.winner !== undefined) setWinner(data.winner)`. -/
def applyWinnerField (data : Snapshot) (s : AppState) : AppState :=
  match data.winner with
  | some v => { s with winner := v }
  | none => s

/-- `if (typeof data.matchesPlayed === 'number') ...`. -/
def applyMatchesPlayedField (data : Snapshot) (s : AppState) : AppState :=
  if isNumber data.matchesPlayed then
    { s with matchesPlayed := numVal data.matchesPlayed }
  else s

/-- `if (typeof data.countdown === 'number') ...`. -/
def applyCountdownField (data : Snapshot) (s : AppState) : AppState :=
  if isNumber data.countdown then
    { s with countdown := numVal data.countdown }
  else s

/-- `if (typeof data.winScore === 'number') ...`. -/
def applyWinScoreField (data : Snapshot) (s : AppState) : AppState :=
  if isNumber data.winScore then
    { s with winScore := numVal data.winScore }
  else s

/-- The victory-message draw: fires whenever the raw `matchState` field
equals `'victory'` or `'countdown'`; `rand` is the random index. -/
def applyVictoryMessageField (rand : Nat) (data : Snapshot) (s : AppState) : AppState :=
  if data.matchState = some (JsVal.vstr "victory")
      || data.matchState = some (JsVal.vstr "countdown") then
    { s with victoryMessage :=
        VICTORY_MESSAGES.getD (rand % VICTORY_MESSAGES.length) "" }
  else s

/-- `applyServerState(data)`: the statements of the source function run
in order.  `rand` is the random index drawn for the victory message. -/
def applyServerState (rand : Nat) (data : Snapshot) (s : AppState) : AppState :=
  applyVictoryMessageField rand data
    (applyWinScoreField data
      (applyCountdownField data
        (applyMatchesPlayedField data
          (applyWinnerField data
            (applyMatchStateField data
              (applyScoresField data s))))))

/-- The `catch` branch of `fetchScores` (failed pull). -/
def fetchScoresFailure (s : AppState) : AppState :=
  { s with isOnline := false
           error := some "Server offline — votes will sync when restored." }

/-- The `catch` branch of `postVote` (failed vote submission): go
offline, surface the revert message, undo the optimistic increment on
both the score and the pending ledger. -/
def postVoteFailure (t : Team) (s : AppState) : AppState :=
  { s with isOnline := false
           error := some "Server offline — reverting vote..."
           scores := s.scores.update t (fun n => n - 1)
           pendingUpdates := s.pendingUpdates.update t (fun n => n - 1) }

/-- `handleVote(team)`: the reconciliation effect of a user vote.  The
returned `Bool` records whether `postVote` was issued (the early return
when the match is not active issues nothing). -/
def handleVote (t : Team) (s : AppState) : AppState × Bool :=
  if s.matchState ≠ JsVal.vstr "active" then (s, false)
  else
    ({ s with scores := s.scores.update t (fun n => n + 1)
              pendingUpdates := s.pendingUpdates.update t (fun n => n + 1) },
     true)

/-- `ws.onopen`. -/
def wsOnOpen (s : AppState) : AppState :=
  { s with isOnline := true, error := none }

/-- `ws.onerror`. -/
def wsOnError (s : AppState) : AppState :=
  { s with isOnline := false
           error := some "Server offline — votes will sync when restored." }

/-- One serialized event of the single logical thread: a user action, a
vote-request completion, a poll completion, or a WebSocket callback.
`rand` carries the random victory-message draw made inside
`applyServerState`. -/
inductive Event where
  | localVote (t : Team)
  | voteOk (rand : Nat) (data : Snapshot)
  | voteFail (t : Team)
  | pullOk (rand : Nat) (data : Snapshot)
  | pullFail
  | wsMsg (rand : Nat) (data : Snapshot)
  | wsMalformed
  | wsOpen
  | wsErr
  deriving DecidableEq, Repr

/-- The event-handling dispatch: each event handled to completion. -/
def step (s : AppState) (e : Event) : AppState :=
  match e with
  | Event.localVote t => (handleVote t s).1
  | Event.voteOk r d => applyServerState r d s
  | Event.voteFail t => postVoteFailure t s
  | Event.pullOk r d => applyServerState r d s
  | Event.pullFail => fetchScoresFailure s
  | Event.wsMsg r d => applyServerState r d s
  | Event.wsMalformed => s
  | Event.wsOpen => wsOnOpen s
  | Event.wsErr => wsOnError s

/-- The state after a serialized event history, from the initial state. -/
def run (es : List Event) : AppState :=
  es.foldl step initState

/-! ## Derived read-only views -/

/-- `getLeader()`. -/
def getLeader (s : AppState) : String :=
  if s.scores.team1 > s.scores.team2 then "team1"
  else if s.scores.team2 > s.scores.team1 then "team2"
  else "tie"

/-- `totalVotes`. -/
def totalVotes (s : AppState) : Int :=
  s.scores.team1 + s.scores.team2

/-- `Math.round` on an exact rational: half-up rounding toward +∞. -/
def jsRound (q : ℚ) : Int :=
  Int.floor (q + 1 / 2)

/-- `team1Pct`. -/
def team1Pct (s : AppState) : Int :=
  if totalVotes s > 0 then
    jsRound ((s.scores.team1 : ℚ) / (totalVotes s : ℚ) * 100)
  else 50

/-- `team2Pct`. -/
def team2Pct (s : AppState) : Int :=
  if totalVotes s > 0 then
    jsRound ((s.scores.team2 : ℚ) / (totalVotes s : ℚ) * 100)
  else 50

/-- `isMatchOver`. -/
def isMatchOver (s : AppState) : Bool :=
  s.matchState = JsVal.vstr "victory" || s.matchState = JsVal.vstr "countdown"

/-! ## Auxiliary predicates for the trace-level properties -/

/-- A snapshot whose `matchState` field, when present, carries one of the
server-enumerated lifecycle values (the code names them `active`,
`victory`, `countdown`). -/
def validMatchStateField (d : Snapshot) : Prop :=
  d.matchState = none ∨ d.matchState = some (JsVal.vstr "active") ∨
  d.matchState = some (JsVal.vstr "victory") ∨
  d.matchState = some (JsVal.vstr "countdown")

instance : DecidablePred validMatchStateField := fun d => by
  unfold validMatchStateField; infer_instance

/-- An event whose snapshot payload, if any, has a valid `matchState`
field. -/
def validEvent : Event → Prop
  | Event.voteOk _ d => validMatchStateField d
  | Event.pullOk _ d => validMatchStateField d
  | Event.wsMsg _ d => validMatchStateField d
  | _ => True

instance : DecidablePred validEvent := fun e => by
  cases e <;> unfold validEvent <;> infer_instance

/-- The `matchState` hook holds one of the three lifecycle values. -/
def matchStateWF (s : AppState) : Prop :=
  s.matchState = JsVal.vstr "active" ∨ s.matchState = JsVal.vstr "victory" ∨
  s.matchState = JsVal.vstr "countdown"

/-- Events that map to a transport failure (vote rejection, pull
rejection, channel error). -/
def failureEvent : Event → Bool
  | Event.voteFail _ => true
  | Event.pullFail => true
  | Event.wsErr => true
  | _ => false

/-- Events that are a successful authoritative exchange (vote response,
successful pull, push message, channel open). -/
def successEvent : Event → Bool
  | Event.voteOk _ _ => true
  | Event.pullOk _ _ => true
  | Event.wsMsg _ _ => true
  | Event.wsOpen => true
  | _ => false

/-- Whether a successful exchange occurs after the last transport
failure of the history (scanned from the most recent event backwards,
stopping at the first failure). -/
def successSinceLastFailure (es : List Event) : Bool :=
  (es.reverse.takeWhile (fun e => ! failureEvent e)).any successEvent

/-- A snapshot whose score fields, when both are numbers, are
non-negative (the server contract for authoritative scores). -/
def scoresNonneg (d : Snapshot) : Prop :=
  isNumber d.team1 = true → isNumber d.team2 = true →
    0 ≤ numVal d.team1 ∧ 0 ≤ numVal d.team2

/-- Guard matching an event against the state it fires in: a revert only
undoes an optimistic vote not yet superseded by a snapshot (its pending
delta is still positive), and applied snapshots carry non-negative
scores. -/
def okEvent (s : AppState) : Event → Prop
  | Event.voteFail t => 1 ≤ s.pendingUpdates.get t
  | Event.voteOk _ d => scoresNonneg d
  | Event.pullOk _ d => scoresNonneg d
  | Event.wsMsg _ d => scoresNonneg d
  | _ => True

/-- States reachable from the initial state by guarded events. -/
inductive Reach : AppState → Prop where
  | init : Reach initState
  | next {s : AppState} (e : Event) : Reach s → okEvent s e → Reach (step s e)

/-- Per-side invariant tying the ledger to the scores: pending deltas
are non-negative and never exceed the displayed score. -/
def ledgerInv (s : AppState) : Prop :=
  0 ≤ s.pendingUpdates.team1 ∧ 0 ≤ s.pendingUpdates.team2 ∧
  s.pendingUpdates.team1 ≤ s.scores.team1 ∧
  s.pendingUpdates.team2 ≤ s.scores.team2

/-! ## Projection lemmas for the statements of `applyServerState` -/

theorem applyScoresField_scores (d : Snapshot) (s : AppState) :
    (applyScoresField d s).scores = if isNumber d.team1 && isNumber d.team2 then ⟨numVal d.team1, numVal d.team2⟩ else s.scores := by
  unfold applyScoresField
  split_ifs <;> rfl

theorem applyScoresField_pendingUpdates (d : Snapshot) (s : AppState) :
    (applyScoresField d s).pendingUpdates = if isNumber d.team1 && isNumber d.team2 then ⟨0, 0⟩ else s.pendingUpdates := by
  unfold applyScoresField
  split_ifs <;> rfl

theorem applyScoresField_isOnline (d : Snapshot) (s : AppState) :
    (applyScoresField d s).isOnline = if isNumber d.team1 && isNumber d.team2 then true else s.isOnline := by
  unfold applyScoresField
  split_ifs <;> rfl

theorem applyScoresField_error (d : Snapshot) (s : AppState) :
    (applyScoresField d s).error = if isNumber d.team1 && isNumber d.team2 then none else s.error := by
  unfold applyScoresField
  split_ifs <;> rfl

theorem applyScoresField_matchState (d : Snapshot) (s : AppState) :
    (applyScoresField d s).matchState = s.matchState := by
  unfold applyScoresField
  split_ifs <;> rfl

theorem applyScoresField_winner (d : Snapshot) (s : AppState) :
    (applyScoresField d s).winner = s.winner := by
  unfold applyScoresField
  split_ifs <;> rfl

theorem applyScoresField_matchesPlayed (d : Snapshot) (s : AppState) :
    (applyScoresField d s).matchesPlayed = s.matchesPlayed := by
  unfold applyScoresField
  split_ifs <;> rfl

theorem applyScoresField_countdown (d : Snapshot) (s : AppState) :
    (applyScoresField d s).countdown = s.countdown := by
  unfold applyScoresField
  split_ifs <;> rfl

theorem applyScoresField_winScore (d : Snapshot) (s : AppState) :
    (applyScoresField d s).winScore = s.winScore := by
  unfold applyScoresField
  split_ifs <;> rfl

theorem applyMatchStateField_scores (d : Snapshot) (s : AppState) :
    (applyMatchStateField d s).scores = s.scores := by
  unfold applyMatchStateField
  split_ifs <;> rfl

theorem applyMatchStateField_pendingUpdates (d : Snapshot) (s : AppState) :
    (applyMatchStateField d s).pendingUpdates = s.pendingUpdates := by
  unfold applyMatchStateField
  split_ifs <;> rfl

theorem applyMatchStateField_isOnline (d : Snapshot) (s : AppState) :
    (applyMatchStateField d s).isOnline = s.isOnline := by
  unfold applyMatchStateField
  split_ifs <;> rfl

theorem applyMatchStateField_error (d : Snapshot) (s : AppState) :
    (applyMatchStateField d s).error = s.error := by
  unfold applyMatchStateField
  split_ifs <;> rfl

theorem applyMatchStateField_matchState (d : Snapshot) (s : AppState) :
    (applyMatchStateField d s).matchState = if truthy d.matchState then (d.matchState).getD JsVal.vnull else s.matchState := by
  unfold applyMatchStateField
  split_ifs <;> rfl

theorem applyMatchStateField_winner (d : Snapshot) (s : AppState) :
    (applyMatchStateField d s).winner = s.winner := by
  unfold applyMatchStateField
  split_ifs <;> rfl

theorem applyMatchStateField_matchesPlayed (d : Snapshot) (s : AppState) :
    (applyMatchStateField d s).matchesPlayed = s.matchesPlayed := by
  unfold applyMatchStateField
  split_ifs <;> rfl

theorem applyMatchStateField_countdown (d : Snapshot) (s : AppState) :
    (applyMatchStateField d s).countdown = s.countdown := by
  unfold applyMatchStateField
  split_ifs <;> rfl

theorem applyMatchStateField_winScore (d : Snapshot) (s : AppState) :
    (applyMatchStateField d s).winScore = s.winScore := by
  unfold applyMatchStateField
  split_ifs <;> rfl

theorem applyWinnerField_scores (d : Snapshot) (s : AppState) :
    (applyWinnerField d s).scores = s.scores := by
  unfold applyWinnerField
  cases hw : d.winner <;> simp [hw]

theorem applyWinnerField_pendingUpdates (d : Snapshot) (s : AppState) :
    (applyWinnerField d s).pendingUpdates = s.pendingUpdates := by
  unfold applyWinnerField
  cases hw : d.winner <;> simp [hw]

theorem applyWinnerField_isOnline (d : Snapshot) (s : AppState) :
    (applyWinnerField d s).isOnline = s.isOnline := by
  unfold applyWinnerField
  cases hw : d.winner <;> simp [hw]

theorem applyWinnerField_error (d : Snapshot) (s : AppState) :
    (applyWinnerField d s).error = s.error := by
  unfold applyWinnerField
  cases hw : d.winner <;> simp [hw]

theorem applyWinnerField_matchState (d : Snapshot) (s : AppState) :
    (applyWinnerField d s).matchState = s.matchState := by
  unfold applyWinnerField
  cases hw : d.winner <;> simp [hw]

theorem applyWinnerField_winner (d : Snapshot) (s : AppState) :
    (applyWinnerField d s).winner = (d.winner).getD s.winner := by
  unfold applyWinnerField
  cases hw : d.winner <;> simp [hw]

theorem applyWinnerField_matchesPlayed (d : Snapshot) (s : AppState) :
    (applyWinnerField d s).matchesPlayed = s.matchesPlayed := by
  unfold applyWinnerField
  cases hw : d.winner <;> simp [hw]

theorem applyWinnerField_countdown (d : Snapshot) (s : AppState) :
    (applyWinnerField d s).countdown = s.countdown := by
  unfold applyWinnerField
  cases hw : d.winner <;> simp [hw]

theorem applyWinnerField_winScore (d : Snapshot) (s : AppState) :
    (applyWinnerField d s).winScore = s.winScore := by
  unfold applyWinnerField
  cases hw : d.winner <;> simp [hw]

theorem applyMatchesPlayedField_scores (d : Snapshot) (s : AppState) :
    (applyMatchesPlayedField d s).scores = s.scores := by
  unfold applyMatchesPlayedField
  split_ifs <;> rfl

theorem applyMatchesPlayedField_pendingUpdates (d : Snapshot) (s : AppState) :
    (applyMatchesPlayedField d s).pendingUpdates = s.pendingUpdates := by
  unfold applyMatchesPlayedField
  split_ifs <;> rfl

theorem applyMatchesPlayedField_isOnline (d : Snapshot) (s : AppState) :
    (applyMatchesPlayedField d s).isOnline = s.isOnline := by
  unfold applyMatchesPlayedField
  split_ifs <;> rfl

theorem applyMatchesPlayedField_error (d : Snapshot) (s : AppState) :
    (applyMatchesPlayedField d s).error = s.error := by
  unfold applyMatchesPlayedField
  split_ifs <;> rfl

theorem applyMatchesPlayedField_matchState (d : Snapshot) (s : AppState) :
    (applyMatchesPlayedField d s).matchState = s.matchState := by
  unfold applyMatchesPlayedField
  split_ifs <;> rfl

theorem applyMatchesPlayedField_winner (d : Snapshot) (s : AppState) :
    (applyMatchesPlayedField d s).winner = s.winner := by
  unfold applyMatchesPlayedField
  split_ifs <;> rfl

theorem applyMatchesPlayedField_matchesPlayed (d : Snapshot) (s : AppState) :
    (applyMatchesPlayedField d s).matchesPlayed = if isNumber d.matchesPlayed then numVal d.matchesPlayed else s.matchesPlayed := by
  unfold applyMatchesPlayedField
  split_ifs <;> rfl

theorem applyMatchesPlayedField_countdown (d : Snapshot) (s : AppState) :
    (applyMatchesPlayedField d s).countdown = s.countdown := by
  unfold applyMatchesPlayedField
  split_ifs <;> rfl

theorem applyMatchesPlayedField_winScore (d : Snapshot) (s : AppState) :
    (applyMatchesPlayedField d s).winScore = s.winScore := by
  unfold applyMatchesPlayedField
  split_ifs <;> rfl

theorem applyCountdownField_scores (d : Snapshot) (s : AppState) :
    (applyCountdownField d s).scores = s.scores := by
  unfold applyCountdownField
  split_ifs <;> rfl

theorem applyCountdownField_pendingUpdates (d : Snapshot) (s : AppState) :
    (applyCountdownField d s).pendingUpdates = s.pendingUpdates := by
  unfold applyCountdownField
  split_ifs <;> rfl

theorem applyCountdownField_isOnline (d : Snapshot) (s : AppState) :
    (applyCountdownField d s).isOnline = s.isOnline := by
  unfold applyCountdownField
  split_ifs <;> rfl

theorem applyCountdownField_error (d : Snapshot) (s : AppState) :
    (applyCountdownField d s).error = s.error := by
  unfold applyCountdownField
  split_ifs <;> rfl

theorem applyCountdownField_matchState (d : Snapshot) (s : AppState) :
    (applyCountdownField d s).matchState = s.matchState := by
  unfold applyCountdownField
  split_ifs <;> rfl

theorem applyCountdownField_winner (d : Snapshot) (s : AppState) :
    (applyCountdownField d s).winner = s.winner := by
  unfold applyCountdownField
  split_ifs <;> rfl

theorem applyCountdownField_matchesPlayed (d : Snapshot) (s : AppState) :
    (applyCountdownField d s).matchesPlayed = s.matchesPlayed := by
  unfold applyCountdownField
  split_ifs <;> rfl

theorem applyCountdownField_countdown (d : Snapshot) (s : AppState) :
    (applyCountdownField d s).countdown = if isNumber d.countdown then numVal d.countdown else s.countdown := by
  unfold applyCountdownField
  split_ifs <;> rfl

theorem applyCountdownField_winScore (d : Snapshot) (s : AppState) :
    (applyCountdownField d s).winScore = s.winScore := by
  unfold applyCountdownField
  split_ifs <;> rfl

theorem applyWinScoreField_scores (d : Snapshot) (s : AppState) :
    (applyWinScoreField d s).scores = s.scores := by
  unfold applyWinScoreField
  split_ifs <;> rfl

theorem applyWinScoreField_pendingUpdates (d : Snapshot) (s : AppState) :
    (applyWinScoreField d s).pendingUpdates = s.pendingUpdates := by
  unfold applyWinScoreField
  split_ifs <;> rfl

theorem applyWinScoreField_isOnline (d : Snapshot) (s : AppState) :
    (applyWinScoreField d s).isOnline = s.isOnline := by
  unfold applyWinScoreField
  split_ifs <;> rfl

theorem applyWinScoreField_error (d : Snapshot) (s : AppState) :
    (applyWinScoreField d s).error = s.error := by
  unfold applyWinScoreField
  split_ifs <;> rfl

theorem applyWinScoreField_matchState (d : Snapshot) (s : AppState) :
    (applyWinScoreField d s).matchState = s.matchState := by
  unfold applyWinScoreField
  split_ifs <;> rfl

theorem applyWinScoreField_winner (d : Snapshot) (s : AppState) :
    (applyWinScoreField d s).winner = s.winner := by
  unfold applyWinScoreField
  split_ifs <;> rfl

theorem applyWinScoreField_matchesPlayed (d : Snapshot) (s : AppState) :
    (applyWinScoreField d s).matchesPlayed = s.matchesPlayed := by
  unfold applyWinScoreField
  split_ifs <;> rfl

theorem applyWinScoreField_countdown (d : Snapshot) (s : AppState) :
    (applyWinScoreField d s).countdown = s.countdown := by
  unfold applyWinScoreField
  split_ifs <;> rfl

theorem applyWinScoreField_winScore (d : Snapshot) (s : AppState) :
    (applyWinScoreField d s).winScore = if isNumber d.winScore then numVal d.winScore else s.winScore := by
  unfold applyWinScoreField
  split_ifs <;> rfl

theorem applyVictoryMessageField_scores (rand : Nat) (d : Snapshot) (s : AppState) :
    (applyVictoryMessageField rand d s).scores = s.scores := by
  unfold applyVictoryMessageField
  split_ifs <;> rfl

theorem applyVictoryMessageField_pendingUpdates (rand : Nat) (d : Snapshot) (s : AppState) :
    (applyVictoryMessageField rand d s).pendingUpdates = s.pendingUpdates := by
  unfold applyVictoryMessageField
  split_ifs <;> rfl

theorem applyVictoryMessageField_isOnline (rand : Nat) (d : Snapshot) (s : AppState) :
    (applyVictoryMessageField rand d s).isOnline = s.isOnline := by
  unfold applyVictoryMessageField
  split_ifs <;> rfl

theorem applyVictoryMessageField_error (rand : Nat) (d : Snapshot) (s : AppState) :
    (applyVictoryMessageField rand d s).error = s.error := by
  unfold applyVictoryMessageField
  split_ifs <;> rfl

theorem applyVictoryMessageField_matchState (rand : Nat) (d : Snapshot) (s : AppState) :
    (applyVictoryMessageField rand d s).matchState = s.matchState := by
  unfold applyVictoryMessageField
  split_ifs <;> rfl

theorem applyVictoryMessageField_winner (rand : Nat) (d : Snapshot) (s : AppState) :
    (applyVictoryMessageField rand d s).winner = s.winner := by
  unfold applyVictoryMessageField
  split_ifs <;> rfl

theorem applyVictoryMessageField_matchesPlayed (rand : Nat) (d : Snapshot) (s : AppState) :
    (applyVictoryMessageField rand d s).matchesPlayed = s.matchesPlayed := by
  unfold applyVictoryMessageField
  split_ifs <;> rfl

theorem applyVictoryMessageField_countdown (rand : Nat) (d : Snapshot) (s : AppState) :
    (applyVictoryMessageField rand d s).countdown = s.countdown := by
  unfold applyVictoryMessageField
  split_ifs <;> rfl

theorem applyVictoryMessageField_winScore (rand : Nat) (d : Snapshot) (s : AppState) :
    (applyVictoryMessageField rand d s).winScore = s.winScore := by
  unfold applyVictoryMessageField
  split_ifs <;> rfl

/-! ## Field characterizations of `applyServerState` -/

theorem applyServerState_scores (r : Nat) (d : Snapshot) (s : AppState) :
    (applyServerState r d s).scores =
      if isNumber d.team1 && isNumber d.team2 then
        ⟨numVal d.team1, numVal d.team2⟩
      else s.scores := by
  simp only [applyServerState, applyVictoryMessageField_scores, applyWinScoreField_scores, applyCountdownField_scores, applyMatchesPlayedField_scores, applyWinnerField_scores, applyMatchStateField_scores, applyScoresField_scores]

theorem applyServerState_pendingUpdates (r : Nat) (d : Snapshot) (s : AppState) :
    (applyServerState r d s).pendingUpdates =
      if isNumber d.team1 && isNumber d.team2 then ⟨0, 0⟩
      else s.pendingUpdates := by
  simp only [applyServerState, applyVictoryMessageField_pendingUpdates, applyWinScoreField_pendingUpdates, applyCountdownField_pendingUpdates, applyMatchesPlayedField_pendingUpdates, applyWinnerField_pendingUpdates, applyMatchStateField_pendingUpdates, applyScoresField_pendingUpdates]

theorem applyServerState_isOnline (r : Nat) (d : Snapshot) (s : AppState) :
    (applyServerState r d s).isOnline =
      if isNumber d.team1 && isNumber d.team2 then true else s.isOnline := by
  simp only [applyServerState, applyVictoryMessageField_isOnline, applyWinScoreField_isOnline, applyCountdownField_isOnline, applyMatchesPlayedField_isOnline, applyWinnerField_isOnline, applyMatchStateField_isOnline, applyScoresField_isOnline]

theorem applyServerState_error (r : Nat) (d : Snapshot) (s : AppState) :
    (applyServerState r d s).error =
      if isNumber d.team1 && isNumber d.team2 then none else s.error := by
  simp only [applyServerState, applyVictoryMessageField_error, applyWinScoreField_error, applyCountdownField_error, applyMatchesPlayedField_error, applyWinnerField_error, applyMatchStateField_error, applyScoresField_error]

theorem applyServerState_matchState (r : Nat) (d : Snapshot) (s : AppState) :
    (applyServerState r d s).matchState =
      if truthy d.matchState then (d.matchState).getD JsVal.vnull
      else s.matchState := by
  simp only [applyServerState, applyVictoryMessageField_matchState, applyWinScoreField_matchState, applyCountdownField_matchState, applyMatchesPlayedField_matchState, applyWinnerField_matchState, applyMatchStateField_matchState, applyScoresField_matchState]

theorem applyServerState_winner (r : Nat) (d : Snapshot) (s : AppState) :
    (applyServerState r d s).winner =
      (d.winner).getD s.winner := by
  simp only [applyServerState, applyVictoryMessageField_winner, applyWinScoreField_winner, applyCountdownField_winner, applyMatchesPlayedField_winner, applyWinnerField_winner, applyMatchStateField_winner, applyScoresField_winner]

theorem applyServerState_matchesPlayed (r : Nat) (d : Snapshot) (s : AppState) :
    (applyServerState r d s).matchesPlayed =
      if isNumber d.matchesPlayed then numVal d.matchesPlayed
      else s.matchesPlayed := by
  simp only [applyServerState, applyVictoryMessageField_matchesPlayed, applyWinScoreField_matchesPlayed, applyCountdownField_matchesPlayed, applyMatchesPlayedField_matchesPlayed, applyWinnerField_matchesPlayed, applyMatchStateField_matchesPlayed, applyScoresField_matchesPlayed]

theorem applyServerState_countdown (r : Nat) (d : Snapshot) (s : AppState) :
    (applyServerState r d s).countdown =
      if isNumber d.countdown then numVal d.countdown else s.countdown := by
  simp only [applyServerState, applyVictoryMessageField_countdown, applyWinScoreField_countdown, applyCountdownField_countdown, applyMatchesPlayedField_countdown, applyWinnerField_countdown, applyMatchStateField_countdown, applyScoresField_countdown]

theorem applyServerState_winScore (r : Nat) (d : Snapshot) (s : AppState) :
    (applyServerState r d s).winScore =
      if isNumber d.winScore then numVal d.winScore else s.winScore := by
  simp only [applyServerState, applyVictoryMessageField_winScore, applyWinScoreField_winScore, applyCountdownField_winScore, applyMatchesPlayedField_winScore, applyWinnerField_winScore, applyMatchStateField_winScore, applyScoresField_winScore]

/-! ## Characterizations of the other handlers -/

theorem handleVote_eq (t : Team) (s : AppState) :
    handleVote t s =
      if s.matchState = JsVal.vstr "active" then
        ({ s with scores := s.scores.update t (fun n => n + 1)
                  pendingUpdates := s.pendingUpdates.update t (fun n => n + 1) },
         true)
      else (s, false) := by
  unfold handleVote
  by_cases h : s.matchState = JsVal.vstr "active" <;> simp [h]

theorem handleVote_matchState (t : Team) (s : AppState) :
    (handleVote t s).1.matchState = s.matchState := by
  rw [handleVote_eq]; split_ifs <;> rfl

theorem handleVote_isOnline (t : Team) (s : AppState) :
    (handleVote t s).1.isOnline = s.isOnline := by
  rw [handleVote_eq]; split_ifs <;> rfl

theorem postVoteFailure_matchState (t : Team) (s : AppState) :
    (postVoteFailure t s).matchState = s.matchState := rfl

theorem step_matchState_const (s : AppState) (e : Event)
    (h : ∀ r d, e ≠ Event.voteOk r d ∧ e ≠ Event.pullOk r d ∧ e ≠ Event.wsMsg r d) :
    (step s e).matchState = s.matchState := by
  cases e with
  | localVote t => exact handleVote_matchState t s
  | voteOk r d => exact absurd rfl (h r d).1
  | pullOk r d => exact absurd rfl (h r d).2.1
  | wsMsg r d => exact absurd rfl (h r d).2.2
  | _ => rfl

/-! ## Claim theorems -/

/-- C10 — Atomicity of the poll path on failure: a failed pull changes
only the connectivity flag (now offline) and the error message; scores,
pending ledger, match state, winner, countdown, win threshold, played
matches and the victory message are all left untouched. -/
theorem fetchScoresFailure_frame (s : AppState) :
    (fetchScoresFailure s).scores = s.scores ∧
    (fetchScoresFailure s).pendingUpdates = s.pendingUpdates ∧
    (fetchScoresFailure s).matchState = s.matchState ∧
    (fetchScoresFailure s).winner = s.winner ∧
    (fetchScoresFailure s).countdown = s.countdown ∧
    (fetchScoresFailure s).winScore = s.winScore ∧
    (fetchScoresFailure s).matchesPlayed = s.matchesPlayed ∧
    (fetchScoresFailure s).victoryMessage = s.victoryMessage ∧
    (fetchScoresFailure s).isOnline = false ∧
    (fetchScoresFailure s).error =
      some "Server offline — votes will sync when restored." :=
  ⟨rfl, rfl, rfl, rfl, rfl, rfl, rfl, rfl, rfl, rfl⟩

/-- C4 — When a snapshot carries scores of number type for both sides,
`applyServerState` overwrites `ScorePair` with exactly the snapshot's
values, zeroes the whole pending ledger, marks the client online and
clears the error message. -/
theorem applyServerState_valid_scores (r : Nat) (d : Snapshot) (s : AppState)
    (h1 : isNumber d.team1 = true) (h2 : isNumber d.team2 = true) :
    (applyServerState r d s).scores = ⟨numVal d.team1, numVal d.team2⟩ ∧
    (applyServerState r d s).pendingUpdates = ⟨0, 0⟩ ∧
    (applyServerState r d s).isOnline = true ∧
    (applyServerState r d s).error = none := by
  refine ⟨?_, ?_, ?_, ?_⟩ <;>
    simp [applyServerState_scores, applyServerState_pendingUpdates,
      applyServerState_isOnline, applyServerState_error, h1, h2]

/-- C4 witness — the spec scenario: from scores `{5,3}` the snapshot
`{team1:6, team2:3}` yields exactly `{6,3}` with the ledger zeroed, the
client online and the error cleared. -/
theorem applyServerState_valid_scores_witness :
    isNumber (some (JsVal.vnum 6)) = true ∧
    isNumber (some (JsVal.vnum 3)) = true ∧
    ((applyServerState 0
        { team1 := some (JsVal.vnum 6), team2 := some (JsVal.vnum 3) }
        { initState with
            scores := ⟨5, 3⟩, pendingUpdates := ⟨1, 0⟩ }).scores = ⟨6, 3⟩ ∧
      (applyServerState 0
        { team1 := some (JsVal.vnum 6), team2 := some (JsVal.vnum 3) }
        { initState with
            scores := ⟨5, 3⟩, pendingUpdates := ⟨1, 0⟩ }).pendingUpdates = ⟨0, 0⟩ ∧
      (applyServerState 0
        { team1 := some (JsVal.vnum 6), team2 := some (JsVal.vnum 3) }
        { initState with
            scores := ⟨5, 3⟩, pendingUpdates := ⟨1, 0⟩ }).isOnline = true ∧
      (applyServerState 0
        { team1 := some (JsVal.vnum 6), team2 := some (JsVal.vnum 3) }
        { initState with
            scores := ⟨5, 3⟩, pendingUpdates := ⟨1, 0⟩ }).error = none) :=
  ⟨rfl, rfl, applyServerState_valid_scores 0 _ _ rfl rfl⟩

/-- C5 — `applyServerState` is idempotent on the reconciliation triple:
applying the same snapshot twice in a row (with any random draws) leaves
the same `ScorePair`, `MatchState` and `PendingLedger` as applying it
once. -/
theorem applyServerState_idempotent (r1 r2 : Nat) (d : Snapshot) (s : AppState) :
    (applyServerState r2 d (applyServerState r1 d s)).scores =
      (applyServerState r1 d s).scores ∧
    (applyServerState r2 d (applyServerState r1 d s)).matchState =
      (applyServerState r1 d s).matchState ∧
    (applyServerState r2 d (applyServerState r1 d s)).pendingUpdates =
      (applyServerState r1 d s).pendingUpdates := by
  refine ⟨?_, ?_, ?_⟩ <;>
    simp only [applyServerState_scores, applyServerState_matchState,
      applyServerState_pendingUpdates] <;>
    split_ifs <;> rfl

/-- C6 — Round trip of optimistic apply and revert: while the match is
active, `handleVote(side)` followed immediately by the `postVote`
failure branch for the same side restores both the scores and the
pending ledger to their pre-vote values exactly. -/
theorem vote_revert_roundtrip (t : Team) (s : AppState)
    (h : s.matchState = JsVal.vstr "active") :
    (postVoteFailure t (handleVote t s).1).scores = s.scores ∧
    (postVoteFailure t (handleVote t s).1).pendingUpdates = s.pendingUpdates := by
  rw [handleVote_eq]
  simp only [h, if_pos]
  unfold postVoteFailure
  cases t <;>
    refine ⟨?_, ?_⟩ <;>
    simp [ScorePair.update]

/-- C6 witness — a vote for team1 at the initial state, immediately
reverted, restores scores and ledger to `{0,0}`. -/
theorem vote_revert_roundtrip_witness :
    initState.matchState = JsVal.vstr "active" ∧
    ((postVoteFailure Team.team1 (handleVote Team.team1 initState).1).scores =
        initState.scores ∧
      (postVoteFailure Team.team1
          (handleVote Team.team1 initState).1).pendingUpdates =
        initState.pendingUpdates) :=
  ⟨rfl, vote_revert_roundtrip Team.team1 initState rfl⟩

/-- C7 — While the match is not active, `handleVote` is a complete
no-op: the state (in particular `ScorePair` and `PendingLedger`) is
returned unchanged and no vote submission is issued. -/
theorem handleVote_inactive_noop (t : Team) (s : AppState)
    (h : s.matchState ≠ JsVal.vstr "active") :
    (handleVote t s).1 = s ∧ (handleVote t s).2 = false := by
  rw [handleVote_eq]
  simp [h]

/-- C7 witness — with the match finished (`matchState = 'victory'`), a
vote for team1 leaves the state untouched and submits nothing. -/
theorem handleVote_inactive_noop_witness :
    ({ initState with matchState := JsVal.vstr "victory" } : AppState).matchState ≠
        JsVal.vstr "active" ∧
    ((handleVote Team.team1
        { initState with matchState := JsVal.vstr "victory" }).1 =
        { initState with matchState := JsVal.vstr "victory" } ∧
      (handleVote Team.team1
        { initState with matchState := JsVal.vstr "victory" }).2 = false) :=
  ⟨by decide, handleVote_inactive_noop Team.team1 _ (by decide)⟩

/-- C8 — Percentage views: when the total vote count is zero both sides
report 50 (the division is never taken); when the total is positive each
side reports the half-up rounding of its share of the total. -/
theorem pct_views (s : AppState) :
    (totalVotes s = 0 → team1Pct s = 50 ∧ team2Pct s = 50) ∧
    (0 < totalVotes s →
      team1Pct s = jsRound ((s.scores.team1 : ℚ) / (totalVotes s : ℚ) * 100) ∧
      team2Pct s = jsRound ((s.scores.team2 : ℚ) / (totalVotes s : ℚ) * 100)) := by
  constructor
  · intro h
    simp [team1Pct, team2Pct, h]
  · intro h
    simp [team1Pct, team2Pct, h]

/-- C8 witness — at the initial state (total 0) both sides report 50;
with scores `{1,3}` (total 4) team1 reports the rounded share of 1/4. -/
theorem pct_views_witness :
    totalVotes initState = 0 ∧
    (team1Pct initState = 50 ∧ team2Pct initState = 50) ∧
    0 < totalVotes { initState with scores := ⟨1, 3⟩ } ∧
    (team1Pct { initState with scores := ⟨1, 3⟩ } =
        jsRound ((({ initState with scores := ⟨1, 3⟩ } : AppState).scores.team1 : ℚ) /
          ((totalVotes { initState with scores := ⟨1, 3⟩ } : Int) : ℚ) * 100) ∧
      team2Pct { initState with scores := ⟨1, 3⟩ } =
        jsRound ((({ initState with scores := ⟨1, 3⟩ } : AppState).scores.team2 : ℚ) /
          ((totalVotes { initState with scores := ⟨1, 3⟩ } : Int) : ℚ) * 100)) :=
  ⟨rfl, (pct_views initState).1 rfl, by decide,
    (pct_views { initState with scores := ⟨1, 3⟩ }).2 (by decide)⟩

/-! Preservation of the match-state enumeration along valid traces. -/

theorem applyServerState_preserves_matchStateWF (r : Nat) (d : Snapshot)
    (s : AppState) (hs : matchStateWF s) (hd : validMatchStateField d) :
    matchStateWF (applyServerState r d s) := by
  unfold matchStateWF at hs ⊢
  rw [applyServerState_matchState]
  rcases hd with h | h | h | h <;> rw [h]
  · simpa [truthy] using hs
  · simp [truthy]
  · simp [truthy]
  · simp [truthy]

theorem step_preserves_matchStateWF (s : AppState) (e : Event)
    (hs : matchStateWF s) (he : validEvent e) : matchStateWF (step s e) := by
  cases e with
  | localVote t =>
      unfold matchStateWF at hs ⊢
      rw [show step s (Event.localVote t) = (handleVote t s).1 from rfl,
        handleVote_matchState]
      exact hs
  | voteOk r d => exact applyServerState_preserves_matchStateWF r d s hs he
  | pullOk r d => exact applyServerState_preserves_matchStateWF r d s hs he
  | wsMsg r d => exact applyServerState_preserves_matchStateWF r d s hs he
  | voteFail t => exact hs
  | pullFail => exact hs
  | wsMalformed => exact hs
  | wsOpen => exact hs
  | wsErr => exact hs

theorem foldl_preserves_matchStateWF (es : List Event) (s : AppState)
    (hs : matchStateWF s) (he : ∀ e ∈ es, validEvent e) :
    matchStateWF (es.foldl step s) := by
  induction es generalizing s with
  | nil => exact hs
  | cons e es ih =>
      exact ih (step s e)
        (step_preserves_matchStateWF s e hs (he e (by simp)))
        (fun x hx => he x (by simp [hx]))

/-- C1 — For every state reachable by a history whose snapshots carry
only the server-enumerated lifecycle values (named `active`, `victory`,
`countdown` in the code; the spec calls the non-active ones `finished`
and `resetting`), `isMatchOver` holds exactly when the current match
state differs from `active`. -/
theorem isMatchOver_iff_not_active (es : List Event)
    (h : ∀ e ∈ es, validEvent e) :
    isMatchOver (run es) = true ↔ (run es).matchState ≠ JsVal.vstr "active" := by
  have hwf : matchStateWF (run es) :=
    foldl_preserves_matchStateWF es initState (Or.inl rfl) h
  rcases hwf with h1 | h1 | h1 <;> simp [isMatchOver, h1]

/-- C1 witness — after a snapshot declaring `victory`, `isMatchOver`
agrees with the match state being non-active. -/
theorem isMatchOver_iff_not_active_witness :
    validEvent (Event.pullOk 0 { matchState := some (JsVal.vstr "victory") }) ∧
    (isMatchOver
        (run [Event.pullOk 0 { matchState := some (JsVal.vstr "victory") }]) = true ↔
      (run [Event.pullOk 0
          { matchState := some (JsVal.vstr "victory") }]).matchState ≠
        JsVal.vstr "active") :=
  ⟨by decide, isMatchOver_iff_not_active _ (by decide)⟩

/-- C2 counterexample — the code guards scores only with
`typeof === 'number'`: a snapshot carrying the malformed (negative)
score `team1 = -1` is applied, changing `ScorePair` instead of leaving
it unchanged. -/
theorem malformed_scores_still_applied :
    (applyServerState 0
      { team1 := some (JsVal.vnum (-1)), team2 := some (JsVal.vnum 3) }
      initState).scores ≠ initState.scores ∧
    (applyServerState 0
      { team1 := some (JsVal.vnum (-1)), team2 := some (JsVal.vnum 3) }
      initState).scores.team1 = -1 := by decide

/-- C2 (amended) — Scores are applied iff both `team1` and `team2` are
present with number type; sign and integrality are not validated.  A
snapshot whose score fields are missing or not numbers leaves both
`ScorePair` and the pending ledger unchanged, while its other valid
fields are still applied field-by-field. -/
theorem applyServerState_scores_guard (r : Nat) (d : Snapshot) (s : AppState)
    (h : ¬(isNumber d.team1 = true ∧ isNumber d.team2 = true)) :
    (applyServerState r d s).scores = s.scores ∧
    (applyServerState r d s).pendingUpdates = s.pendingUpdates ∧
    (applyServerState r d s).matchState =
      (if truthy d.matchState then (d.matchState).getD JsVal.vnull
       else s.matchState) ∧
    (applyServerState r d s).winner = (d.winner).getD s.winner ∧
    (applyServerState r d s).matchesPlayed =
      (if isNumber d.matchesPlayed then numVal d.matchesPlayed
       else s.matchesPlayed) ∧
    (applyServerState r d s).countdown =
      (if isNumber d.countdown then numVal d.countdown else s.countdown) ∧
    (applyServerState r d s).winScore =
      (if isNumber d.winScore then numVal d.winScore else s.winScore) := by
  have hb : (isNumber d.team1 && isNumber d.team2) = false := by
    cases h1 : isNumber d.team1 <;> cases h2 : isNumber d.team2 <;> simp_all
  refine ⟨?_, ?_, ?_, ?_, ?_, ?_, ?_⟩ <;>
    simp [applyServerState_scores, applyServerState_pendingUpdates,
      applyServerState_matchState, applyServerState_winner,
      applyServerState_matchesPlayed, applyServerState_countdown,
      applyServerState_winScore, hb]

/-- C2 (amended) witness — a snapshot with `team1` missing leaves the
scores `{5,3}` and the ledger untouched while still applying its
`matchState` and `countdown` fields. -/
theorem applyServerState_scores_guard_witness :
    ¬(isNumber (Snapshot.team1
        { team2 := some (JsVal.vnum 2),
          matchState := some (JsVal.vstr "victory"),
          countdown := some (JsVal.vnum 7) }) = true ∧
      isNumber (Snapshot.team2
        { team2 := some (JsVal.vnum 2),
          matchState := some (JsVal.vstr "victory"),
          countdown := some (JsVal.vnum 7) }) = true) ∧
    ((applyServerState 0
        { team2 := some (JsVal.vnum 2),
          matchState := some (JsVal.vstr "victory"),
          countdown := some (JsVal.vnum 7) }
        { initState with scores := ⟨5, 3⟩ }).scores =
        ({ initState with scores := ⟨5, 3⟩ } : AppState).scores ∧
      (applyServerState 0
        { team2 := some (JsVal.vnum 2),
          matchState := some (JsVal.vstr "victory"),
          countdown := some (JsVal.vnum 7) }
        { initState with scores := ⟨5, 3⟩ }).pendingUpdates =
        ({ initState with scores := ⟨5, 3⟩ } : AppState).pendingUpdates ∧
      (applyServerState 0
        { team2 := some (JsVal.vnum 2),
          matchState := some (JsVal.vstr "victory"),
          countdown := some (JsVal.vnum 7) }
        { initState with scores := ⟨5, 3⟩ }).matchState =
        (if truthy (Snapshot.matchState
            { team2 := some (JsVal.vnum 2),
              matchState := some (JsVal.vstr "victory"),
              countdown := some (JsVal.vnum 7) }) then
          (Snapshot.matchState
            { team2 := some (JsVal.vnum 2),
              matchState := some (JsVal.vstr "victory"),
              countdown := some (JsVal.vnum 7) }).getD JsVal.vnull
         else ({ initState with scores := ⟨5, 3⟩ } : AppState).matchState) ∧
      (applyServerState 0
        { team2 := some (JsVal.vnum 2),
          matchState := some (JsVal.vstr "victory"),
          countdown := some (JsVal.vnum 7) }
        { initState with scores := ⟨5, 3⟩ }).winner =
        (Snapshot.winner
          { team2 := some (JsVal.vnum 2),
            matchState := some (JsVal.vstr "victory"),
            countdown := some (JsVal.vnum 7) }).getD
          ({ initState with scores := ⟨5, 3⟩ } : AppState).winner ∧
      (applyServerState 0
        { team2 := some (JsVal.vnum 2),
          matchState := some (JsVal.vstr "victory"),
          countdown := some (JsVal.vnum 7) }
        { initState with scores := ⟨5, 3⟩ }).matchesPlayed =
        (if isNumber (Snapshot.matchesPlayed
            { team2 := some (JsVal.vnum 2),
              matchState := some (JsVal.vstr "victory"),
              countdown := some (JsVal.vnum 7) }) then
          numVal (Snapshot.matchesPlayed
            { team2 := some (JsVal.vnum 2),
              matchState := some (JsVal.vstr "victory"),
              countdown := some (JsVal.vnum 7) })
         else ({ initState with scores := ⟨5, 3⟩ } : AppState).matchesPlayed) ∧
      (applyServerState 0
        { team2 := some (JsVal.vnum 2),
          matchState := some (JsVal.vstr "victory"),
          countdown := some (JsVal.vnum 7) }
        { initState with scores := ⟨5, 3⟩ }).countdown =
        (if isNumber (Snapshot.countdown
            { team2 := some (JsVal.vnum 2),
              matchState := some (JsVal.vstr "victory"),
              countdown := some (JsVal.vnum 7) }) then
          numVal (Snapshot.countdown
            { team2 := some (JsVal.vnum 2),
              matchState := some (JsVal.vstr "victory"),
              countdown := some (JsVal.vnum 7) })
         else ({ initState with scores := ⟨5, 3⟩ } : AppState).countdown) ∧
      (applyServerState 0
        { team2 := some (JsVal.vnum 2),
          matchState := some (JsVal.vstr "victory"),
          countdown := some (JsVal.vnum 7) }
        { initState with scores := ⟨5, 3⟩ }).winScore =
        (if isNumber (Snapshot.winScore
            { team2 := some (JsVal.vnum 2),
              matchState := some (JsVal.vstr "victory"),
              countdown := some (JsVal.vnum 7) }) then
          numVal (Snapshot.winScore
            { team2 := some (JsVal.vnum 2),
              matchState := some (JsVal.vstr "victory"),
              countdown := some (JsVal.vnum 7) })
         else ({ initState with scores := ⟨5, 3⟩ } : AppState).winScore)) :=
  ⟨by decide, applyServerState_scores_guard 0 _ _ (by decide)⟩

/-- C3 counterexample — one interleaving drives a counter below zero: a
local vote for team1, then an authoritative snapshot `{0,0}` (zeroing
scores and ledger), then the failure response of the earlier vote
arriving late and reverting, leaves `team1 = -1`. -/
theorem revert_after_snapshot_goes_negative :
    (run [Event.localVote Team.team1,
          Event.pullOk 0
            { team1 := some (JsVal.vnum 0), team2 := some (JsVal.vnum 0) },
          Event.voteFail Team.team1]).scores.team1 = -1 ∧
    (run [Event.localVote Team.team1,
          Event.pullOk 0
            { team1 := some (JsVal.vnum 0), team2 := some (JsVal.vnum 0) },
          Event.voteFail Team.team1]).scores.team1 < 0 := by decide

/-- The ledger invariant holds along every guarded trace: pending deltas
stay non-negative and never exceed the corresponding score. -/
theorem reach_ledgerInv (s : AppState) (h : Reach s) : ledgerInv s := by
  induction h with
  | init => exact ⟨le_refl 0, le_refl 0, le_refl 0, le_refl 0⟩
  | next e hr hok ih =>
      rename_i s
      obtain ⟨i1, i2, i3, i4⟩ := ih
      cases e with
      | localVote t =>
          show ledgerInv (handleVote t s).1
          rw [handleVote_eq]
          split_ifs
          · unfold ledgerInv
            cases t <;> simp [ScorePair.update] <;> omega
          · exact ⟨i1, i2, i3, i4⟩
      | voteOk r d =>
          show ledgerInv (applyServerState r d s)
          unfold ledgerInv
          rw [applyServerState_scores, applyServerState_pendingUpdates]
          split_ifs with hc
          · rw [Bool.and_eq_true] at hc
            obtain ⟨ha, hb⟩ := hok hc.1 hc.2
            exact ⟨le_refl 0, le_refl 0, ha, hb⟩
          · exact ⟨i1, i2, i3, i4⟩
      | pullOk r d =>
          show ledgerInv (applyServerState r d s)
          unfold ledgerInv
          rw [applyServerState_scores, applyServerState_pendingUpdates]
          split_ifs with hc
          · rw [Bool.and_eq_true] at hc
            obtain ⟨ha, hb⟩ := hok hc.1 hc.2
            exact ⟨le_refl 0, le_refl 0, ha, hb⟩
          · exact ⟨i1, i2, i3, i4⟩
      | wsMsg r d =>
          show ledgerInv (applyServerState r d s)
          unfold ledgerInv
          rw [applyServerState_scores, applyServerState_pendingUpdates]
          split_ifs with hc
          · rw [Bool.and_eq_true] at hc
            obtain ⟨ha, hb⟩ := hok hc.1 hc.2
            exact ⟨le_refl 0, le_refl 0, ha, hb⟩
          · exact ⟨i1, i2, i3, i4⟩
      | voteFail t =>
          show ledgerInv (postVoteFailure t s)
          have hp : 1 ≤ s.pendingUpdates.get t := hok
          unfold ledgerInv postVoteFailure
          cases t <;> simp [ScorePair.update, ScorePair.get] at hp ⊢ <;> omega
      | pullFail => exact ⟨i1, i2, i3, i4⟩
      | wsMalformed => exact ⟨i1, i2, i3, i4⟩
      | wsOpen => exact ⟨i1, i2, i3, i4⟩
      | wsErr => exact ⟨i1, i2, i3, i4⟩

/-- C3 (amended) — Both score counters and both ledger entries are
non-negative in every state reachable by interleavings in which every
applied snapshot carries non-negative scores and every revert undoes an
optimistic vote not yet superseded by a snapshot (its pending delta is
still positive).  Without the revert guard the invariant fails: a revert
arriving after an authoritative snapshot has zeroed the ledger drives
the counter to `-1`. -/
theorem scores_nonneg_of_reach (s : AppState) (h : Reach s) :
    0 ≤ s.scores.team1 ∧ 0 ≤ s.scores.team2 ∧
    0 ≤ s.pendingUpdates.team1 ∧ 0 ≤ s.pendingUpdates.team2 := by
  obtain ⟨i1, i2, i3, i4⟩ := reach_ledgerInv s h
  exact ⟨le_trans i1 i3, le_trans i2 i4, i1, i2⟩

/-- C3 (amended) witness — the state after one optimistic vote for
team1 is reachable and non-negative everywhere. -/
theorem scores_nonneg_of_reach_witness :
    0 ≤ (step initState (Event.localVote Team.team1)).scores.team1 ∧
    0 ≤ (step initState (Event.localVote Team.team1)).scores.team2 ∧
    0 ≤ (step initState (Event.localVote Team.team1)).pendingUpdates.team1 ∧
    0 ≤ (step initState (Event.localVote Team.team1)).pendingUpdates.team2 :=
  scores_nonneg_of_reach _
    (Reach.next (Event.localVote Team.team1) Reach.init trivial)

/-- C9 counterexample — the initial state reports online before any
server contact: `isOnline` is initialized to `true` although no
successful authoritative exchange has occurred. -/
theorem initial_state_online_without_exchange :
    (run []).isOnline = true ∧ successSinceLastFailure [] = false := by
  decide

theorem successSince_append_not_failure (es : List Event) (e : Event)
    (hf : failureEvent e = false) :
    successSinceLastFailure (es ++ [e]) =
      (successEvent e || successSinceLastFailure es) := by
  unfold successSinceLastFailure
  rw [List.reverse_append]
  simp [hf, List.takeWhile_cons]

theorem step_isOnline_of_failure (s : AppState) (e : Event)
    (hf : failureEvent e = true) : (step s e).isOnline = false := by
  cases e <;>
    simp_all [failureEvent, step, postVoteFailure, fetchScoresFailure, wsOnError]

/-- C9 (amended) — Whenever a reachable state reports online, either no
transport failure has occurred in its history, or a successful
authoritative exchange (vote response, pull, push message, or channel
open) occurred after the last failure.  The initial state, however,
reports online by default before any exchange, so the claim's
strengthening to the pristine initial state fails. -/
theorem online_requires_success_since_failure (es : List Event)
    (h : (run es).isOnline = true) :
    (∀ e ∈ es, failureEvent e = false) ∨
      successSinceLastFailure es = true := by
  induction es using List.reverseRecOn with
  | nil =>
      left
      intro e he
      simp at he
  | append_singleton es e ih =>
      have hrun : run (es ++ [e]) = step (run es) e := by
        unfold run
        rw [List.foldl_append]
        rfl
      rw [hrun] at h
      cases hfe : failureEvent e with
      | true =>
          rw [step_isOnline_of_failure (run es) e hfe] at h
          exact absurd h (by simp)
      | false =>
          cases hse : successEvent e with
          | true =>
              right
              rw [successSince_append_not_failure es e hfe, hse]
              simp
          | false =>
              have hon : (step (run es) e).isOnline = (run es).isOnline := by
                cases e <;>
                  simp_all [successEvent, failureEvent, step, handleVote_isOnline,
                    wsOnOpen]
              rw [hon] at h
              rcases ih h with hall | hs
              · left
                intro x hx
                rcases List.mem_append.mp hx with hx | hx
                · exact hall x hx
                · rw [List.mem_singleton.mp hx]
                  exact hfe
              · right
                rw [successSince_append_not_failure es e hfe, hs]
                simp

/-- C9 (amended) witness — after a failed pull followed by a channel
open, the client is online and a success follows the last failure. -/
theorem online_requires_success_witness :
    (run [Event.pullFail, Event.wsOpen]).isOnline = true ∧
    ((∀ e ∈ [Event.pullFail, Event.wsOpen], failureEvent e = false) ∨
      successSinceLastFailure [Event.pullFail, Event.wsOpen] = true) :=
  ⟨by decide, online_requires_success_since_failure _ (by decide)⟩

end VotingWar
